import Mathlib

/-!
Shallow embedding of the persistence layer of the aws-healthscribe-demo
repository, covering:

* the user-preferences client (`src/src/main.tsx`: `loadPreferencesFromAPI`,
  `savePreferencesToAPI`, `loadPreferencesFromLocalStorage`,
  `savePreferencesToLocalStorage`),
* the note-template migration helpers and default record
  (`src/src/types/UserPreferences.ts` — packaged in this checkout together
  with `src/src/utils/DynamoDB/UserPreferencesTable.ts`),
* the deployed preferences Lambda
  (`src/infrastructure/cdk/cdk.out/asset.…/index.js`: `getPreferences`,
  `createOrUpdatePreferences`, `updatePreferences`),
* the Settings note-template toggle handler
  (`src/src/components/Settings/Settings.tsx`: `handleNoteTemplateChange`),
* the patient data-access layer
  (`src/src/utils/PatientApi.ts` — packaged in this checkout inside
  `src/src/vite-env.d.ts`: `getProviderPatients`, `getPatientById`,
  `deletePatient`).

Modelling conventions: JavaScript strings are Lean `String`s, JS numbers
appearing in preference fields are `Rat`, timestamps from `new Date()` are
opaque `String` parameters, the DynamoDB patients table is a `List Patient`
in secondary-index traversal order, and the single-item preferences table is
an `Option StoredItem`.  A parsed JSON object holding a subset of preference
fields is a `PrefsPatch` (all fields optional); the object stored in the
`preferences` attribute by the Lambda additionally may carry a nested
`preferences` key (`PrefsObj`).  `fetch` results are modelled by explicit
result types (`ApiGetResult`, `ApiPutResult`); a thrown network error is a
distinguished constructor, so `try/catch` becomes a `match`.
-/

/-- JS `o1.f !== undefined ? o1.f : o2.f` as produced by object spread
`{...a, ...b}` on a single field: the second object's field wins when
present. -/
def ovr {α : Type} (a b : Option α) : Option α :=
  match b with
  | some v => some v
  | none => a

/-- Helper `listStartsWith n h` : the char list `n` is an initial segment of `h`
(helper for JS `String.prototype.includes`). -/
def listStartsWith : List Char → List Char → Bool
  | [], _ => true
  | _ :: _, [] => false
  | a :: as, b :: bs => a == b && listStartsWith as bs

/-- Helper `listContainsSeq n h` : the char list `n` occurs contiguously in `h`
(helper for JS `String.prototype.includes`). -/
def listContainsSeq (needle : List Char) : List Char → Bool
  | [] => listStartsWith needle []
  | b :: bs => listStartsWith needle (b :: bs) || listContainsSeq needle bs

/-- JS `hay.includes(needle)` on strings. -/
def strIncludes (hay needle : String) : Bool :=
  listContainsSeq needle.data hay.data

/-- JS `s.toLowerCase()` (character-wise lower-casing, structural model of
the library function). -/
def strToLower (s : String) : String :=
  ⟨s.data.map Char.toLower⟩

/-- JS `s.trim()` (drop leading and trailing whitespace, structural model
of the library function). -/
def strTrim (s : String) : String :=
  ⟨((s.data.dropWhile Char.isWhitespace).reverse.dropWhile Char.isWhitespace).reverse⟩

/-- The flat user-preferences object of `src/src/types/UserPreferences.ts`
(`interface UserPreferences`).  TypeScript union types are erased at
runtime, so enum-like fields are raw `String`s, exactly as they travel
through JSON. -/
structure UserPreferences where
  providerName : String
  providerSpecialty : String
  enabledNoteTemplates : List String
  defaultNoteTemplate : String
  comprehendMedicalEnabled : Bool
  billingCycle : String
  region : String
  apiTiming : Bool
  defaultPlaybackSpeed : Rat
  skipInterval : Rat
  autoScroll : Bool
  defaultTab : String
  smallTalkDefault : Bool
  silenceDefault : Bool
  confidenceThreshold : Rat
  autoExtract : Bool
deriving DecidableEq, Repr

/-- Constant `DEFAULT_USER_PREFERENCES` of `src/src/types/UserPreferences.ts`. -/
def DEFAULT_USER_PREFERENCES : UserPreferences :=
  { providerName := ""
    providerSpecialty := "FAMILY_MEDICINE"
    enabledNoteTemplates := ["HISTORY_AND_PHYSICAL", "GIRPP", "BIRP", "SIRP", "DAP",
      "BEHAVIORAL_SOAP", "PHYSICAL_SOAP"]
    defaultNoteTemplate := "HISTORY_AND_PHYSICAL"
    comprehendMedicalEnabled := true
    billingCycle := "MONTHLY"
    region := "us-east-1"
    apiTiming := false
    defaultPlaybackSpeed := 1
    skipInterval := 5
    autoScroll := true
    defaultTab := "transcript"
    smallTalkDefault := false
    silenceDefault := false
    confidenceThreshold := 75
    autoExtract := false }

/-- A parsed JSON object carrying an arbitrary subset of the preference
fields (what `JSON.parse` of a stored/transmitted preferences payload can
yield); absent fields are `none`. -/
structure PrefsPatch where
  providerName : Option String := none
  providerSpecialty : Option String := none
  enabledNoteTemplates : Option (List String) := none
  defaultNoteTemplate : Option String := none
  comprehendMedicalEnabled : Option Bool := none
  billingCycle : Option String := none
  region : Option String := none
  apiTiming : Option Bool := none
  defaultPlaybackSpeed : Option Rat := none
  skipInterval : Option Rat := none
  autoScroll : Option Bool := none
  defaultTab : Option String := none
  smallTalkDefault : Option Bool := none
  silenceDefault : Option Bool := none
  confidenceThreshold : Option Rat := none
  autoExtract : Option Bool := none
deriving DecidableEq, Repr

/-- The empty JSON object viewed as a preferences patch (also models
spreading `undefined`, which contributes no fields). -/
def emptyPatch : PrefsPatch := {}

/-- A full preferences object serialised to JSON and parsed back: every
field present (`JSON.stringify` of a complete `UserPreferences`). -/
def toPatch (p : UserPreferences) : PrefsPatch :=
  { providerName := some p.providerName
    providerSpecialty := some p.providerSpecialty
    enabledNoteTemplates := some p.enabledNoteTemplates
    defaultNoteTemplate := some p.defaultNoteTemplate
    comprehendMedicalEnabled := some p.comprehendMedicalEnabled
    billingCycle := some p.billingCycle
    region := some p.region
    apiTiming := some p.apiTiming
    defaultPlaybackSpeed := some p.defaultPlaybackSpeed
    skipInterval := some p.skipInterval
    autoScroll := some p.autoScroll
    defaultTab := some p.defaultTab
    smallTalkDefault := some p.smallTalkDefault
    silenceDefault := some p.silenceDefault
    confidenceThreshold := some p.confidenceThreshold
    autoExtract := some p.autoExtract }

/-- JS `{...base, ...patch}` where `base` is a complete preferences object:
fields present in `patch` win, absent ones fall back to `base`. -/
def mergePrefs (base : UserPreferences) (patch : PrefsPatch) : UserPreferences :=
  { providerName := patch.providerName.getD base.providerName
    providerSpecialty := patch.providerSpecialty.getD base.providerSpecialty
    enabledNoteTemplates := patch.enabledNoteTemplates.getD base.enabledNoteTemplates
    defaultNoteTemplate := patch.defaultNoteTemplate.getD base.defaultNoteTemplate
    comprehendMedicalEnabled := patch.comprehendMedicalEnabled.getD base.comprehendMedicalEnabled
    billingCycle := patch.billingCycle.getD base.billingCycle
    region := patch.region.getD base.region
    apiTiming := patch.apiTiming.getD base.apiTiming
    defaultPlaybackSpeed := patch.defaultPlaybackSpeed.getD base.defaultPlaybackSpeed
    skipInterval := patch.skipInterval.getD base.skipInterval
    autoScroll := patch.autoScroll.getD base.autoScroll
    defaultTab := patch.defaultTab.getD base.defaultTab
    smallTalkDefault := patch.smallTalkDefault.getD base.smallTalkDefault
    silenceDefault := patch.silenceDefault.getD base.silenceDefault
    confidenceThreshold := patch.confidenceThreshold.getD base.confidenceThreshold
    autoExtract := patch.autoExtract.getD base.autoExtract }

/-- Source `migrateNoteTemplate` of `src/src/types/UserPreferences.ts`:
`migrationMap[template] || template` with the two legacy renames. -/
def migrateNoteTemplate (template : String) : String :=
  if template = "BH_SOAP" then "BEHAVIORAL_SOAP"
  else if template = "PH_SOAP" then "PHYSICAL_SOAP"
  else template

/-- Source `migrateNoteTemplateArray` of `src/src/types/UserPreferences.ts`. -/
def migrateNoteTemplateArray (templates : List String) : List String :=
  templates.map migrateNoteTemplate

/-- The two in-place assignments
`preferences.enabledNoteTemplates = migrateNoteTemplateArray(…)` and
`preferences.defaultNoteTemplate = migrateNoteTemplate(…)` performed by
both load paths in `src/src/main.tsx`. -/
def applyMigrations (p : UserPreferences) : UserPreferences :=
  { p with
    enabledNoteTemplates := migrateNoteTemplateArray p.enabledNoteTemplates
    defaultNoteTemplate := migrateNoteTemplate p.defaultNoteTemplate }

/-- Source `loadPreferencesFromLocalStorage` of `src/src/main.tsx`.  The local
mirror is `none` when the key is absent (or `JSON.parse` threw, which the
source catches and treats the same way); otherwise it holds the parsed
object. -/
def loadPreferencesFromLocalStorage (stored : Option PrefsPatch) : UserPreferences :=
  match stored with
  | some parsed => applyMigrations (mergePrefs DEFAULT_USER_PREFERENCES parsed)
  | none => DEFAULT_USER_PREFERENCES

/-- Source `savePreferencesToLocalStorage` of `src/src/main.tsx`: the new content
of the local mirror after `localStorage.setItem(…, JSON.stringify(p))`. -/
def savePreferencesToLocalStorage (p : UserPreferences) : Option PrefsPatch :=
  some (toPatch p)

/-- The JS object stored in (and served from) the Lambda's `preferences`
attribute: the preference fields that are present at top level, plus a
possible nested `preferences` key (it arises because the Lambda spreads the
client's `{preferences: …}` request body into its defaults). -/
structure PrefsObj where
  fields : PrefsPatch := {}
  preferencesField : Option PrefsPatch := none
deriving DecidableEq, Repr

/-- JS `{...a, ...b}` on two preference-shaped objects, field by field. -/
def spreadPrefsObj (a b : PrefsObj) : PrefsObj :=
  { fields :=
      { providerName := ovr a.fields.providerName b.fields.providerName
        providerSpecialty := ovr a.fields.providerSpecialty b.fields.providerSpecialty
        enabledNoteTemplates := ovr a.fields.enabledNoteTemplates b.fields.enabledNoteTemplates
        defaultNoteTemplate := ovr a.fields.defaultNoteTemplate b.fields.defaultNoteTemplate
        comprehendMedicalEnabled := ovr a.fields.comprehendMedicalEnabled b.fields.comprehendMedicalEnabled
        billingCycle := ovr a.fields.billingCycle b.fields.billingCycle
        region := ovr a.fields.region b.fields.region
        apiTiming := ovr a.fields.apiTiming b.fields.apiTiming
        defaultPlaybackSpeed := ovr a.fields.defaultPlaybackSpeed b.fields.defaultPlaybackSpeed
        skipInterval := ovr a.fields.skipInterval b.fields.skipInterval
        autoScroll := ovr a.fields.autoScroll b.fields.autoScroll
        defaultTab := ovr a.fields.defaultTab b.fields.defaultTab
        smallTalkDefault := ovr a.fields.smallTalkDefault b.fields.smallTalkDefault
        silenceDefault := ovr a.fields.silenceDefault b.fields.silenceDefault
        confidenceThreshold := ovr a.fields.confidenceThreshold b.fields.confidenceThreshold
        autoExtract := ovr a.fields.autoExtract b.fields.autoExtract }
    preferencesField := ovr a.preferencesField b.preferencesField }

/-- Constant `DEFAULT_PREFERENCES` of the deployed Lambda
(`src/infrastructure/cdk/cdk.out/asset.…/index.js`); note its
`enabledNoteTemplates` still contains the legacy `BH_SOAP`/`PH_SOAP`
members. -/
def LAMBDA_DEFAULT_PREFERENCES : PrefsObj :=
  { fields :=
      { providerName := some ""
        providerSpecialty := some "FAMILY_MEDICINE"
        enabledNoteTemplates := some ["HISTORY_AND_PHYSICAL", "GIRPP", "BIRP", "SIRP",
          "DAP", "BH_SOAP", "PH_SOAP"]
        defaultNoteTemplate := some "HISTORY_AND_PHYSICAL"
        comprehendMedicalEnabled := some true
        billingCycle := some "MONTHLY"
        region := some "us-east-1"
        apiTiming := some false
        defaultPlaybackSpeed := some 1
        skipInterval := some 5
        autoScroll := some true
        defaultTab := some "transcript"
        smallTalkDefault := some false
        silenceDefault := some false
        confidenceThreshold := some 75
        autoExtract := some false }
    preferencesField := none }

/-- One item of the `user-preferences` DynamoDB table as written by the
Lambda (`PK`/`SK` are fixed by the user id and omitted). -/
structure StoredItem where
  preferences : PrefsObj
  version : Nat
  createdAt : String
  updatedAt : String
deriving DecidableEq, Repr

/-- Response of a Lambda handler whose body is a preferences-shaped JSON
object (`getPreferences` serialises `result.Item.preferences` bare). -/
structure LambdaGetResponse where
  statusCode : Nat
  body : PrefsObj
deriving DecidableEq, Repr

/-- Source `getPreferences` of the deployed Lambda: 200 with the stored
`preferences` attribute when the item exists, otherwise 200 with
`DEFAULT_PREFERENCES` (there is no 404 branch). -/
def getPreferences (store : Option StoredItem) : LambdaGetResponse :=
  match store with
  | some item => { statusCode := 200, body := item.preferences }
  | none => { statusCode := 200, body := LAMBDA_DEFAULT_PREFERENCES }

/-- Response of the Lambda PUT/PATCH handlers: status plus the
`preferences` object echoed in the body. -/
structure LambdaWriteResponse where
  statusCode : Nat
  preferences : PrefsObj
deriving DecidableEq, Repr

/-- Source `createOrUpdatePreferences` of the deployed Lambda (PUT): stores
`{...DEFAULT_PREFERENCES, ...parsedBody}` with `version` unconditionally
`1`, and returns the new table state and the 200 response. -/
def createOrUpdatePreferences (store : Option StoredItem) (parsedBody : PrefsObj)
    (now : String) : Option StoredItem × LambdaWriteResponse :=
  let item : StoredItem :=
    { preferences := spreadPrefsObj LAMBDA_DEFAULT_PREFERENCES parsedBody
      version := 1
      createdAt := now
      updatedAt := now }
  (some item, { statusCode := 200, preferences := item.preferences })

/-- Source `updatePreferences` of the deployed Lambda (PATCH): read-modify-write
with `version := currentVersion + 1` (`currentVersion` is `0` when no item
exists), `createdAt` preserved from the existing item. -/
def updatePreferences (store : Option StoredItem) (updates : PrefsObj)
    (now : String) : Option StoredItem × LambdaWriteResponse :=
  let currentPreferences :=
    match store with
    | some item => item.preferences
    | none => LAMBDA_DEFAULT_PREFERENCES
  let currentVersion :=
    match store with
    | some item => item.version
    | none => 0
  let updatedPreferences := spreadPrefsObj currentPreferences updates
  let item : StoredItem :=
    { preferences := updatedPreferences
      version := currentVersion + 1
      createdAt := match store with | some it => it.createdAt | none => now
      updatedAt := now }
  (some item, { statusCode := 200, preferences := updatedPreferences })

/-- Outcome of the client's `fetch` GET in `loadPreferencesFromAPI`:
a response whose parsed JSON body is `body` and whose `ok`/`status` are
determined by `statusCode`, or a thrown network error. -/
inductive ApiGetResult where
  | response (statusCode : Nat) (body : PrefsObj)
  | networkError
deriving DecidableEq, Repr

/-- JS `Response.ok`: status in the 2xx range. -/
def respOk (statusCode : Nat) : Bool :=
  200 ≤ statusCode && statusCode < 300

/-- Source `loadPreferencesFromAPI` of `src/src/main.tsx`.  `configured` is
truthiness of `config?.api_url`; `store` is the local mirror.  Returns the
loaded preferences together with the local mirror after the call (a
successful remote read mirrors the merged record; the other paths leave the
mirror unchanged).  Note the client reads `data.preferences` from the
response body. -/
def loadPreferencesFromAPI (configured : Bool) (resp : ApiGetResult)
    (store : Option PrefsPatch) : UserPreferences × Option PrefsPatch :=
  if !configured then
    (loadPreferencesFromLocalStorage store, store)
  else
    match resp with
    | .response statusCode body =>
        if respOk statusCode then
          let preferences :=
            applyMigrations (mergePrefs DEFAULT_USER_PREFERENCES
              (body.preferencesField.getD emptyPatch))
          (preferences, savePreferencesToLocalStorage preferences)
        else if statusCode = 404 then
          (DEFAULT_USER_PREFERENCES, store)
        else
          (loadPreferencesFromLocalStorage store, store)
    | .networkError => (loadPreferencesFromLocalStorage store, store)

/-- Outcome of the client's `fetch` PUT in `savePreferencesToAPI`. -/
inductive ApiPutResult where
  | response (statusCode : Nat)
  | networkError
deriving DecidableEq, Repr

/-- Source `savePreferencesToAPI` of `src/src/main.tsx`: returns the reported
success flag and the local mirror after the call (every branch mirrors the
record locally). -/
def savePreferencesToAPI (configured : Bool) (resp : ApiPutResult)
    (preferences : UserPreferences) (store : Option PrefsPatch) :
    Bool × Option PrefsPatch :=
  if !configured then
    (true, savePreferencesToLocalStorage preferences)
  else
    match resp with
    | .response statusCode =>
        if respOk statusCode then
          (true, savePreferencesToLocalStorage preferences)
        else
          (false, savePreferencesToLocalStorage preferences)
    | .networkError => (false, savePreferencesToLocalStorage preferences)

/-- The PUT request body `JSON.stringify({ preferences })` sent by
`savePreferencesToAPI`, as parsed by the Lambda: an object whose only key
is `preferences`, holding the full record. -/
def clientPutBody (p : UserPreferences) : PrefsObj :=
  { fields := {}, preferencesField := some (toPatch p) }

/-- Glue between the Lambda GET response and the client's view of the
`fetch` result (same status code, same parsed body). -/
def lambdaGetToClient (r : LambdaGetResponse) : ApiGetResult :=
  .response r.statusCode r.body

/-- Glue between the Lambda write response and the client's view of the
`fetch` result. -/
def lambdaWriteToClient (r : LambdaWriteResponse) : ApiPutResult :=
  .response r.statusCode

/-- Source `handleNoteTemplateChange` of `src/src/components/Settings/Settings.tsx`:
computes the preferences object passed to `savePreferences` via
`updatePreferences({enabledNoteTemplates, defaultNoteTemplate})`, or `none`
when the change is rejected (`return` before any persistence call, taken
when unchecking would empty the enabled set).  `newTemplates[0]` in the
source is only reached on a non-empty list; the empty case is modelled by
`headD ""` (JS would yield `undefined`). -/
def handleNoteTemplateChange (preferences : UserPreferences) (template : String)
    (checked : Bool) : Option UserPreferences :=
  let currentTemplates := preferences.enabledNoteTemplates
  let newTemplates :=
    if checked then currentTemplates ++ [template]
    else currentTemplates.filter (fun t => t ≠ template)
  if !checked ∧ newTemplates = [] then
    none
  else
    some { preferences with
      enabledNoteTemplates := newTemplates
      defaultNoteTemplate :=
        if preferences.defaultNoteTemplate ∈ newTemplates then
          preferences.defaultNoteTemplate
        else
          newTemplates.headD "" }

/-- The optional `demographics` object of a patient record
(`src/src/types/Patient.ts`, packaged in this checkout inside
`src/src/utils/DynamoDB/UserPreferencesTable.ts`). -/
structure Demographics where
  gender : Option String := none
  race : Option String := none
  ethnicity : Option String := none
deriving DecidableEq, Repr

/-- One item of the patients DynamoDB table (`interface Patient` of
`src/src/types/Patient.ts`). -/
structure Patient where
  patientId : String
  providerId : String
  patientName : String
  dateOfBirth : Option String := none
  mrn : Option String := none
  phoneNumber : Option String := none
  email : Option String := none
  demographics : Option Demographics := none
  isActive : Bool
  createdAt : String
  updatedAt : String
  lastEncounterDate : Option String := none
  encounterCount : Nat
deriving DecidableEq, Repr

/-- Source `interface PatientSearchResult` of `src/src/types/Patient.ts`: the
projection returned by `getProviderPatients`. -/
structure PatientSearchResult where
  patientId : String
  patientName : String
  dateOfBirth : Option String
  mrn : Option String
  lastEncounterDate : Option String
  encounterCount : Nat
deriving DecidableEq, Repr

/-- The `patients.map(patient => ({...}))` projection at the end of
`getProviderPatients`. -/
def toSearchResult (p : Patient) : PatientSearchResult :=
  { patientId := p.patientId
    patientName := p.patientName
    dateOfBirth := p.dateOfBirth
    mrn := p.mrn
    lastEncounterDate := p.lastEncounterDate
    encounterCount := p.encounterCount }

/-- The client-side search predicate of `getProviderPatients`:
`patient.patientName.toLowerCase().includes(term) || (patient.mrn &&
patient.mrn.toLowerCase().includes(term)) || (patient.email && …)` where
`term` is already lower-cased and trimmed.  The truthiness guard on the
optional `mrn`/`email` fields is the JS `&&`. -/
def matchesSearchTerm (term : String) (p : Patient) : Bool :=
  strIncludes (strToLower p.patientName) term ||
    (p.mrn.getD "" ≠ "" && strIncludes (strToLower (p.mrn.getD "")) term) ||
    (p.email.getD "" ≠ "" && strIncludes (strToLower (p.email.getD "")) term)

/-- Source `getProviderPatients` of `src/src/utils/PatientApi.ts`.  The `table`
list models the `providerId-patientName-index` secondary index in traversal
order (the source queries with `ScanIndexForward: false`; the order is
irrelevant to the claims).  DynamoDB applies `Limit` to the items matched
by the key condition (`providerId = :providerId`) before evaluating the
`FilterExpression` (`isActive = true`); the client-side term filter then
runs on the returned page.  `if (!providerId) return []` is the empty-string
guard; `if (searchTerm && searchTerm.trim())` decides whether the term
filter applies. -/
def getProviderPatients (table : List Patient) (providerId : String)
    (searchTerm : Option String) (limit : Nat) : List PatientSearchResult :=
  if providerId = "" then []
  else
    let page := (table.filter (fun p => p.providerId = providerId)).take limit
    let patients := page.filter (fun p => p.isActive)
    let filtered :=
      match searchTerm with
      | some rawTerm =>
          if rawTerm ≠ "" ∧ strTrim rawTerm ≠ "" then
            let term := strTrim (strToLower rawTerm)
            patients.filter (matchesSearchTerm term)
          else patients
      | none => patients
    filtered.map toSearchResult

/-- Source `getPatientById` of `src/src/utils/PatientApi.ts`: a primary-key `get`
followed by `if (!patient || patient.providerId !== providerId ||
!patient.isActive) return null`. -/
def getPatientById (table : List Patient) (patientId providerId : String) :
    Option Patient :=
  match table.find? (fun p => p.patientId = patientId) with
  | none => none
  | some patient =>
      if patient.providerId ≠ providerId ∨ !patient.isActive then none
      else some patient

/-- Source `deletePatient` of `src/src/utils/PatientApi.ts`: an `UpdateCommand`
keyed on `patientId` with condition `providerId = :providerId AND isActive
= :currentActive(true)` setting `isActive := false` and `updatedAt := now`.
A failed condition (item absent, other owner, or already inactive) throws,
is caught, and yields `false` with the table unchanged.  DynamoDB keys are
unique, so the update is modelled as rewriting every item with that key. -/
def deletePatient (table : List Patient) (patientId providerId : String)
    (now : String) : List Patient × Bool :=
  match table.find? (fun p => p.patientId = patientId) with
  | some patient =>
      if patient.providerId = providerId ∧ patient.isActive then
        (table.map (fun q =>
          if q.patientId = patientId then { q with isActive := false, updatedAt := now }
          else q), true)
      else (table, false)
  | none => (table, false)

/-- Property that a preferences record contains no legacy/removed note
template enum member (the C3 migration-totality target). -/
def noLegacyPrefs (p : UserPreferences) : Prop :=
  p.defaultNoteTemplate ≠ "BH_SOAP" ∧ p.defaultNoteTemplate ≠ "PH_SOAP" ∧
    ∀ t ∈ p.enabledNoteTemplates, t ≠ "BH_SOAP" ∧ t ≠ "PH_SOAP"

/-- Sample active patient of provider `provA` (for concrete witnesses). -/
def patJaneA : Patient :=
  { patientId := "p1", providerId := "provA", patientName := "Jane Doe",
    isActive := true, createdAt := "t0", updatedAt := "t0", encounterCount := 0 }

/-- Sample active patient of provider `provB` with the same name as
`patJaneA` (name collision across providers). -/
def patJaneB : Patient :=
  { patientId := "p2", providerId := "provB", patientName := "Jane Doe",
    isActive := true, createdAt := "t0", updatedAt := "t0", encounterCount := 3 }

/-- Sample stored preferences item with version 2, as left by a PATCH. -/
def itemV2 : StoredItem :=
  { preferences := LAMBDA_DEFAULT_PREFERENCES, version := 2,
    createdAt := "t0", updatedAt := "t0" }

/-- Sample non-default preferences record (for concrete witnesses). -/
def prefsDrA : UserPreferences :=
  { DEFAULT_USER_PREFERENCES with providerName := "Dr. Alice", defaultNoteTemplate := "DAP" }

/-- Sample preferences record with a single enabled note template. -/
def prefsSingleDAP : UserPreferences :=
  { DEFAULT_USER_PREFERENCES with enabledNoteTemplates := ["DAP"], defaultNoteTemplate := "DAP" }

/-- Sample non-default local mirror content (for concrete witnesses). -/
def localMirrorDrLocal : PrefsPatch :=
  toPatch { DEFAULT_USER_PREFERENCES with providerName := "Dr. Local" }

/-- Source `interface UserPreferencesRecord` of
`src/src/types/UserPreferences.ts`: the client-side view of one stored
preferences item. -/
structure UserPreferencesRecord where
  PK : String
  SK : String
  preferences : UserPreferences
  version : Nat
  createdAt : String
  updatedAt : String
deriving DecidableEq, Repr

/-- Source `UserPreferencesTable.updateRecord` of
`src/src/utils/DynamoDB/UserPreferencesTable.ts`: spreads the updates over
the existing preferences and sets `version := existingRecord.version + 1`. -/
def UserPreferencesTable_updateRecord (existingRecord : UserPreferencesRecord)
    (updates : PrefsPatch) (now : String) : UserPreferencesRecord :=
  { existingRecord with
    preferences := mergePrefs existingRecord.preferences updates
    version := existingRecord.version + 1
    updatedAt := now }

theorem migrateNoteTemplate_ne_legacy (t : String) :
    migrateNoteTemplate t ≠ "BH_SOAP" ∧ migrateNoteTemplate t ≠ "PH_SOAP" := by
  unfold migrateNoteTemplate
  split
  · exact ⟨by decide, by decide⟩
  · split
    · exact ⟨by decide, by decide⟩
    · next h1 h2 => exact ⟨h1, h2⟩

theorem migrateNoteTemplate_eq_self (t : String)
    (h1 : t ≠ "BH_SOAP") (h2 : t ≠ "PH_SOAP") : migrateNoteTemplate t = t := by
  unfold migrateNoteTemplate
  rw [if_neg h1, if_neg h2]

theorem migrateNoteTemplateArray_eq_self (l : List String)
    (h : ∀ t ∈ l, t ≠ "BH_SOAP" ∧ t ≠ "PH_SOAP") : migrateNoteTemplateArray l = l := by
  unfold migrateNoteTemplateArray
  induction l with
  | nil => rfl
  | cons a as ih =>
      have ha := h a (List.mem_cons_self a as)
      simp only [List.map_cons, migrateNoteTemplate_eq_self a ha.1 ha.2,
        ih (fun t ht => h t (List.mem_cons_of_mem a ht))]

theorem noLegacy_applyMigrations (p : UserPreferences) : noLegacyPrefs (applyMigrations p) := by
  refine ⟨(migrateNoteTemplate_ne_legacy _).1, (migrateNoteTemplate_ne_legacy _).2, ?_⟩
  intro t ht
  simp only [applyMigrations, migrateNoteTemplateArray, List.mem_map] at ht
  obtain ⟨s, _, rfl⟩ := ht
  exact migrateNoteTemplate_ne_legacy s

theorem noLegacy_default : noLegacyPrefs DEFAULT_USER_PREFERENCES := by
  unfold noLegacyPrefs
  decide

theorem noLegacy_loadLocal (stored : Option PrefsPatch) :
    noLegacyPrefs (loadPreferencesFromLocalStorage stored) := by
  cases stored with
  | none => exact noLegacy_default
  | some parsed => exact noLegacy_applyMigrations _

theorem mergePrefs_toPatch (base p : UserPreferences) :
    mergePrefs base (toPatch p) = p := rfl

theorem applyMigrations_eq_self (p : UserPreferences) (h : noLegacyPrefs p) :
    applyMigrations p = p := by
  obtain ⟨h1, h2, h3⟩ := h
  unfold applyMigrations
  rw [migrateNoteTemplateArray_eq_self _ h3, migrateNoteTemplate_eq_self _ h1 h2]

theorem mem_getProviderPatients_src (table : List Patient) (providerId : String)
    (searchTerm : Option String) (limit : Nat) (r : PatientSearchResult)
    (hr : r ∈ getProviderPatients table providerId searchTerm limit) :
    ∃ p, p ∈ table ∧ p.providerId = providerId ∧ p.isActive = true ∧
      toSearchResult p = r := by
  unfold getProviderPatients at hr
  by_cases hA : providerId = ""
  · simp [hA] at hr
  · rw [if_neg hA] at hr
    simp only [List.mem_map] at hr
    obtain ⟨p, hp, hpr⟩ := hr
    have hp' : p ∈ ((table.filter (fun q => q.providerId = providerId)).take limit).filter
        (fun q => q.isActive) := by
      split at hp
      · split at hp
        · exact List.mem_of_mem_filter hp
        · exact hp
      · exact hp
    have hp2 := List.mem_filter.1 hp'
    have hp3 := List.take_subset _ _ hp2.1
    have hp4 := List.mem_filter.1 hp3
    exact ⟨p, hp4.1, by simpa using hp4.2, hp2.2, hpr⟩

/-- C1: for every provider identity `A` and every search term, patient
search `getProviderPatients(A, term, limit)` returns only records whose
`providerId` field equals `A`: every returned result is the projection of a
table record owned by `A` (and active).  No record owned by a different
provider is ever the source of a result, even when patient names collide
across providers. -/
theorem getProviderPatients_provider_isolation
    (table : List Patient) (providerId : String) (searchTerm : Option String)
    (limit : Nat) (r : PatientSearchResult)
    (hr : r ∈ getProviderPatients table providerId searchTerm limit) :
    ∃ p, p ∈ table ∧ p.providerId = providerId ∧ p.isActive = true ∧
      toSearchResult p = r :=
  mem_getProviderPatients_src table providerId searchTerm limit r hr

/-- Witness for C1: a two-provider table with colliding names, searched by
provider `provA` for `jane`. -/
theorem getProviderPatients_provider_isolation_witness :
    toSearchResult patJaneA ∈ getProviderPatients [patJaneA, patJaneB] "provA" (some "jane") 50 ∧
    (∃ p, p ∈ [patJaneA, patJaneB] ∧ p.providerId = "provA" ∧ p.isActive = true ∧
      toSearchResult p = toSearchResult patJaneA) :=
  ⟨by decide,
    getProviderPatients_provider_isolation [patJaneA, patJaneB] "provA" (some "jane") 50
      (toSearchResult patJaneA) (by decide)⟩

/-- C10: calling `getProviderPatients` with an empty or whitespace-only
search term skips the client-side text filter entirely: the result equals
the no-term call, which returns all active records for the provider
retrieved by the index query, up to `limit`. -/
theorem getProviderPatients_blank_term_skips_filter
    (table : List Patient) (providerId : String) (limit : Nat) (rawTerm : String)
    (h : strTrim rawTerm = "") :
    getProviderPatients table providerId (some rawTerm) limit =
      getProviderPatients table providerId none limit ∧
    getProviderPatients table providerId none limit =
      (if providerId = "" then []
       else (((table.filter (fun p => p.providerId = providerId)).take limit).filter
         (fun p => p.isActive)).map toSearchResult) := by
  constructor
  · by_cases hA : providerId = ""
    · simp [getProviderPatients, hA]
    · have hc : ¬(rawTerm ≠ "" ∧ strTrim rawTerm ≠ "") := fun hc => hc.2 h
      simp only [getProviderPatients, if_neg hA]
      rw [if_neg hc]
  · rfl

/-- Witness for C10: a whitespace-only term over a concrete table. -/
theorem getProviderPatients_blank_term_skips_filter_witness :
    strTrim "   " = "" ∧
    getProviderPatients [patJaneA, patJaneB] "provA" (some "   ") 50 =
      getProviderPatients [patJaneA, patJaneB] "provA" none 50 :=
  ⟨by decide,
    (getProviderPatients_blank_term_skips_filter [patJaneA, patJaneB] "provA" 50 "   "
      (by decide)).1⟩

/-- C3: every settings record returned by a load — from the remote API, the
local mirror, or the default — contains no legacy/removed enum member
(`BH_SOAP` or `PH_SOAP`) in `enabledNoteTemplates` or
`defaultNoteTemplate`: the migration to `BEHAVIORAL_SOAP`/`PHYSICAL_SOAP`
is total.  Presence of every preference field is by construction: each load
path backfills missing fields from `DEFAULT_USER_PREFERENCES` through
`mergePrefs`, yielding a total record. -/
theorem load_migration_total :
    (∀ (configured : Bool) (resp : ApiGetResult) (store : Option PrefsPatch),
      noLegacyPrefs (loadPreferencesFromAPI configured resp store).1) ∧
    (∀ stored : Option PrefsPatch, noLegacyPrefs (loadPreferencesFromLocalStorage stored)) := by
  refine ⟨?_, noLegacy_loadLocal⟩
  intro configured resp store
  unfold loadPreferencesFromAPI
  cases configured with
  | false => simpa using noLegacy_loadLocal store
  | true =>
      cases resp with
      | networkError => simpa using noLegacy_loadLocal store
      | response statusCode body =>
          by_cases hok : respOk statusCode = true
          · simpa [hok] using noLegacy_applyMigrations
              (mergePrefs DEFAULT_USER_PREFERENCES (body.preferencesField.getD emptyPatch))
          · by_cases h404 : statusCode = 404
            · simpa [hok, h404] using noLegacy_default
            · simpa [hok, h404] using noLegacy_loadLocal store

/-- Witness for C3: a remote 500 with a populated local mirror. -/
theorem load_migration_total_witness :
    (loadPreferencesFromAPI true (ApiGetResult.response 500 LAMBDA_DEFAULT_PREFERENCES)
      (some (toPatch prefsDrA))).1.defaultNoteTemplate ≠ "BH_SOAP" :=
  (load_migration_total.1 true (ApiGetResult.response 500 LAMBDA_DEFAULT_PREFERENCES)
    (some (toPatch prefsDrA))).1

/-- C4: the template-toggle handler never persists an empty enabled set:
whenever it does produce a record to save, that record's
`enabledNoteTemplates` is non-empty, and unchecking the last remaining
enabled template is rejected (`none`) before any persistence call, leaving
the previous state in effect. -/
theorem handleNoteTemplateChange_nonempty_invariant
    (preferences : UserPreferences) (template : String) :
    (∀ (checked : Bool) (p' : UserPreferences),
      handleNoteTemplateChange preferences template checked = some p' →
      p'.enabledNoteTemplates ≠ []) ∧
    (preferences.enabledNoteTemplates.filter (fun t => t ≠ template) = [] →
      handleNoteTemplateChange preferences template false = none) := by
  constructor
  · intro checked p' hp'
    cases checked with
    | true =>
        simp only [handleNoteTemplateChange] at hp'
        simp at hp'
        rw [← hp']
        intro hnil
        have hlen := congrArg List.length hnil
        simp at hlen
    | false =>
        simp only [handleNoteTemplateChange] at hp'
        simp at hp'
        obtain ⟨hex, heq⟩ := hp'
        rw [← heq]
        intro hnil
        obtain ⟨x, hx, hxt⟩ := hex
        have hnil' : List.filter (fun t => !decide (t = template))
            preferences.enabledNoteTemplates = [] := hnil
        have hmem : x ∈ List.filter (fun t => !decide (t = template))
            preferences.enabledNoteTemplates := List.mem_filter.2 ⟨hx, by simpa using hxt⟩
        rw [hnil'] at hmem
        exact absurd hmem (List.not_mem_nil x)
  · intro hfilter
    simp only [handleNoteTemplateChange]
    rw [if_pos ⟨rfl, hfilter⟩]

/-- Witness for C4: unchecking the only enabled template (`DAP`) is
rejected. -/
theorem handleNoteTemplateChange_nonempty_invariant_witness :
    handleNoteTemplateChange prefsSingleDAP "DAP" false = none :=
  (handleNoteTemplateChange_nonempty_invariant prefsSingleDAP "DAP").2 (by decide)

theorem deletePatient_success_eq (table : List Patient) (pid providerId now : String)
    (hok : (deletePatient table pid providerId now).2 = true) :
    (deletePatient table pid providerId now).1 =
      table.map (fun q =>
        if q.patientId = pid then { q with isActive := false, updatedAt := now } else q) ∧
    ∃ p, table.find? (fun q => q.patientId = pid) = some p ∧
      p.providerId = providerId ∧ p.isActive = true := by
  unfold deletePatient at hok ⊢
  split at hok
  · rename_i patient heq
    rw [heq]
    split at hok
    · rename_i hcond
      refine ⟨?_, patient, rfl, hcond.1, hcond.2⟩
      show (if patient.providerId = providerId ∧ patient.isActive = true then
          (table.map (fun q =>
            if q.patientId = pid then { q with isActive := false, updatedAt := now } else q),
            true)
        else (table, false)).1 = _
      rw [if_pos hcond]
    · simp at hok
  · simp at hok

/-- C6: when the remote settings endpoint fails with a non-404 HTTP error
(for example 500) or a network error and a local mirror exists, `load()`
returns the locally-mirrored record — defaulted and migrated — rather than
the hardcoded default record, and leaves the mirror unchanged.  No error
reaches the caller: the embedded function is total and the source catches
every failure. -/
theorem load_falls_back_to_local_mirror
    (statusCode : Nat) (body : PrefsObj) (m : PrefsPatch)
    (hnotOk : respOk statusCode = false) (hnot404 : statusCode ≠ 404) :
    loadPreferencesFromAPI true (ApiGetResult.response statusCode body) (some m) =
      (loadPreferencesFromLocalStorage (some m), some m) ∧
    loadPreferencesFromAPI true ApiGetResult.networkError (some m) =
      (loadPreferencesFromLocalStorage (some m), some m) ∧
    loadPreferencesFromLocalStorage (some m) =
      applyMigrations (mergePrefs DEFAULT_USER_PREFERENCES m) := by
  refine ⟨?_, rfl, rfl⟩
  unfold loadPreferencesFromAPI
  simp [hnotOk, hnot404]

/-- Witness for C6: a 500 response with a populated local mirror. -/
theorem load_falls_back_to_local_mirror_witness :
    loadPreferencesFromAPI true (ApiGetResult.response 500 LAMBDA_DEFAULT_PREFERENCES)
      (some localMirrorDrLocal) =
      (loadPreferencesFromLocalStorage (some localMirrorDrLocal), some localMirrorDrLocal) :=
  (load_falls_back_to_local_mirror 500 LAMBDA_DEFAULT_PREFERENCES localMirrorDrLocal
    (by decide) (by decide)).1

/-- C7: when the remote upsert fails (non-2xx response or network error)
the record is still written to local storage and `save` reports `false`;
on remote success it is mirrored to local storage and `save` reports
`true`. -/
theorem save_mirrors_locally_and_reports
    (preferences : UserPreferences) (store : Option PrefsPatch) (statusCode : Nat) :
    (respOk statusCode = false →
      savePreferencesToAPI true (ApiPutResult.response statusCode) preferences store =
        (false, some (toPatch preferences))) ∧
    savePreferencesToAPI true ApiPutResult.networkError preferences store =
      (false, some (toPatch preferences)) ∧
    (respOk statusCode = true →
      savePreferencesToAPI true (ApiPutResult.response statusCode) preferences store =
        (true, some (toPatch preferences))) := by
  refine ⟨?_, rfl, ?_⟩
  · intro h
    unfold savePreferencesToAPI
    simp [h, savePreferencesToLocalStorage]
  · intro h
    unfold savePreferencesToAPI
    simp [h, savePreferencesToLocalStorage]

/-- Witness for C7: a 500 and a 200 response on a concrete record. -/
theorem save_mirrors_locally_and_reports_witness :
    savePreferencesToAPI true (ApiPutResult.response 500) prefsDrA none =
      (false, some (toPatch prefsDrA)) ∧
    savePreferencesToAPI true (ApiPutResult.response 200) prefsDrA none =
      (true, some (toPatch prefsDrA)) :=
  ⟨(save_mirrors_locally_and_reports prefsDrA none 500).1 (by decide),
   (save_mirrors_locally_and_reports prefsDrA none 200).2.2 (by decide)⟩

/-- Counterexample to C5 as stated: after a successful soft delete, the
record is NOT retrievable by direct identity lookup — `getPatientById`
checks `!patient.isActive` and returns null for the soft-deleted record,
whereas the claim requires the record to be returned with
`isActive = false`. -/
theorem deletePatient_lookup_counterexample :
    (deletePatient [patJaneA] "p1" "provA" "t1").2 = true ∧
    getPatientById (deletePatient [patJaneA] "p1" "provA" "t1").1 "p1" "provA" = none := by
  decide

/-- C5 (amended): after a successful soft delete (`deletePatient` flips
`isActive` to false), the record no longer appears in subsequent
`getProviderPatients` results for the same provider, and it is also no
longer retrievable via `getPatientById` — which filters out inactive
records and returns null; the record itself remains in the table with
`isActive = false`. -/
theorem deletePatient_soft_delete_behavior
    (table : List Patient) (pid providerId now : String)
    (searchTerm : Option String) (limit : Nat)
    (hok : (deletePatient table pid providerId now).2 = true) :
    (∀ r ∈ getProviderPatients (deletePatient table pid providerId now).1 providerId
        searchTerm limit, r.patientId ≠ pid) ∧
    getPatientById (deletePatient table pid providerId now).1 pid providerId = none ∧
    ∃ q ∈ (deletePatient table pid providerId now).1,
      q.patientId = pid ∧ q.isActive = false := by
  obtain ⟨hT, p, hfind, hprov, hact⟩ := deletePatient_success_eq table pid providerId now hok
  have hinactive : ∀ q ∈ (deletePatient table pid providerId now).1,
      q.patientId = pid → q.isActive = false := by
    intro q hq hqp
    rw [hT] at hq
    obtain ⟨s, _, hsq⟩ := List.mem_map.1 hq
    by_cases hsp : s.patientId = pid
    · rw [if_pos hsp] at hsq
      rw [← hsq]
    · rw [if_neg hsp] at hsq
      rw [← hsq] at hqp
      exact absurd hqp hsp
  refine ⟨?_, ?_, ?_⟩
  · intro r hr hrp
    obtain ⟨q, hq, _, hqact, hqr⟩ := mem_getProviderPatients_src _ _ _ _ _ hr
    have hqp : q.patientId = pid := by rw [← hqr] at hrp; exact hrp
    have := hinactive q hq hqp
    rw [this] at hqact
    exact Bool.false_ne_true hqact
  · unfold getPatientById
    cases hfind2 : (deletePatient table pid providerId now).1.find?
        (fun q => q.patientId = pid) with
    | none => rfl
    | some q =>
        have hq := List.mem_of_find?_eq_some hfind2
        have hqp : q.patientId = pid := by simpa using List.find?_some hfind2
        have hqa := hinactive q hq hqp
        show (if q.providerId ≠ providerId ∨ (!q.isActive) = true then none
          else some q) = none
        rw [if_pos (Or.inr (show (!q.isActive) = true by rw [hqa]; rfl))]
  · have hp := List.mem_of_find?_eq_some hfind
    have hpid : p.patientId = pid := by simpa using List.find?_some hfind
    refine ⟨{ p with isActive := false, updatedAt := now }, ?_, hpid, rfl⟩
    rw [hT]
    refine List.mem_map.2 ⟨p, hp, ?_⟩
    exact if_pos hpid

/-- Witness for C5 (amended): a concrete one-patient table. -/
theorem deletePatient_soft_delete_behavior_witness :
    getPatientById (deletePatient [patJaneA] "p1" "provA" "t2").1 "p1" "provA" = none ∧
    (∃ q ∈ (deletePatient [patJaneA] "p1" "provA" "t2").1,
      q.patientId = "p1" ∧ q.isActive = false) :=
  ⟨(deletePatient_soft_delete_behavior [patJaneA] "p1" "provA" "t2" none 50 (by decide)).2.1,
   (deletePatient_soft_delete_behavior [patJaneA] "p1" "provA" "t2" none 50 (by decide)).2.2⟩

/-- Counterexample to C8 as stated: with no stored record for the identity,
`GET /preferences/{userId}` responds 200 (carrying the Lambda's default
preferences), not 404 — the handler has no 404 branch. -/
theorem getPreferences_missing_record_counterexample :
    (getPreferences none).statusCode = 200 ∧
    ¬(getPreferences none).statusCode = 404 := by
  decide

/-- C8 (amended): `getPreferences` responds 200 with the stored preferences
when a record exists for the identity, and 200 with the Lambda's default
preferences when no record exists; it never responds 404. -/
theorem getPreferences_status_behavior (store : Option StoredItem) :
    (getPreferences store).statusCode = 200 ∧
    (getPreferences store).body =
      (match store with
       | some item => item.preferences
       | none => LAMBDA_DEFAULT_PREFERENCES) := by
  cases store <;> exact ⟨rfl, rfl⟩

/-- Counterexample to C9 as stated: a PUT (`createOrUpdatePreferences`) on
a record whose version is 2 stores version 1 — a write that leaves the
version lower than its previous value. -/
theorem put_resets_version_counterexample :
    itemV2.version = 2 ∧
    ((createOrUpdatePreferences (some itemV2) (clientPutBody DEFAULT_USER_PREFERENCES)
      "t1").1).map StoredItem.version = some 1 :=
  ⟨rfl, rfl⟩

/-- C9 (amended): the version field is not monotonic across all writes.
PATCH (`updatePreferences`) strictly increments it — new version =
previous + 1 (with previous = 0 when no record exists) — and the
client-side `UserPreferencesTable.updateRecord` likewise sets
`version + 1`, but PUT (`createOrUpdatePreferences`) unconditionally
resets the version to 1, so a PUT can leave the version lower than or
equal to its previous value.  The version is never checked on write. -/
theorem preferences_version_write_behavior
    (store : Option StoredItem) (body updates : PrefsObj) (now now' : String)
    (rec : UserPreferencesRecord) (patch : PrefsPatch) :
    ((createOrUpdatePreferences store body now).1).map StoredItem.version = some 1 ∧
    ((updatePreferences store updates now').1).map StoredItem.version =
      some ((match store with | some it => it.version | none => 0) + 1) ∧
    (UserPreferencesTable_updateRecord rec patch now).version = rec.version + 1 := by
  refine ⟨rfl, ?_, rfl⟩
  cases store <;> rfl

/-- C2: with the remote store available (the PUT and the following GET both
reach the Lambda and succeed), `save(P)` followed by `load()` on the same
identity returns the saved preferences record `P` unchanged, for every
well-typed `P` (the TypeScript `ClinicalNoteTemplate` type excludes the two
removed legacy members, which is the hypothesis below).  The
`version`/`updatedAt` bookkeeping fields live on the stored item outside
the `preferences` object and are not part of the returned record.  The
round-trip succeeds through two mutually-cancelling shape mismatches: the
client wraps the PUT body as `{preferences: P}`, the Lambda spreads that
whole body into its defaults (storing `P` under a nested `preferences`
key), and the client then reads `data.preferences` from the bare stored
object served by GET. -/
theorem save_then_load_round_trip
    (P : UserPreferences) (store0 : Option StoredItem) (local0 : Option PrefsPatch)
    (now : String)
    (hd1 : P.defaultNoteTemplate ≠ "BH_SOAP") (hd2 : P.defaultNoteTemplate ≠ "PH_SOAP")
    (he : ∀ t ∈ P.enabledNoteTemplates, t ≠ "BH_SOAP" ∧ t ≠ "PH_SOAP") :
    (savePreferencesToAPI true
      (lambdaWriteToClient (createOrUpdatePreferences store0 (clientPutBody P) now).2)
      P local0).1 = true ∧
    (loadPreferencesFromAPI true
      (lambdaGetToClient (getPreferences
        (createOrUpdatePreferences store0 (clientPutBody P) now).1))
      (savePreferencesToAPI true
        (lambdaWriteToClient (createOrUpdatePreferences store0 (clientPutBody P) now).2)
        P local0).2).1 = P := by
  constructor
  · rfl
  · show applyMigrations (mergePrefs DEFAULT_USER_PREFERENCES (toPatch P)) = P
    rw [mergePrefs_toPatch]
    exact applyMigrations_eq_self P ⟨hd1, hd2, he⟩

/-- Witness for C2: a concrete non-default record round-trips through an
empty store. -/
theorem save_then_load_round_trip_witness :
    (loadPreferencesFromAPI true
      (lambdaGetToClient (getPreferences
        (createOrUpdatePreferences none (clientPutBody prefsDrA) "t0").1))
      (savePreferencesToAPI true
        (lambdaWriteToClient (createOrUpdatePreferences none (clientPutBody prefsDrA) "t0").2)
        prefsDrA none).2).1 = prefsDrA :=
  (save_then_load_round_trip prefsDrA none none "t0" (by decide) (by decide) (by decide)).2
